import Mathlib

/-!
Shallow embedding of the status-relay pipeline of the client-portal
repository, together with proofs of the specified properties.

The embedded source files are:
  - src/pages/api/webhooks/github-status.ts  (webhook receiver, status
    mapper, time-remaining estimator, in-memory status store, status
    query endpoint)
  - src/pages/api/generate.ts  (form validation, client-id synthesis,
    dispatch endpoint)

Conventions of the embedding:
  - TypeScript string enums become inductive types; every other string
    stays a Lean String.
  - JavaScript runtime nondeterminism (Date.now, new Date, Math.random)
    and runtime services (JSON.parse, the HMAC-SHA256 hex digest, the
    upstream fetch result) are passed in as explicit parameters.
  - Exceptions become explicit result constructors; the try/catch at
    each handler boundary becomes the corresponding 500 branch.
  - The in-memory Map becomes a function from keys to optional records;
    Map.prototype.set becomes a pointwise functional update.
-/

namespace ClientPortal

/-! ## Data model (github-status.ts lines 11-40) -/

/-- The GenerationStatus.status enum: starting, in-progress, completed, error. -/
inductive LifecycleStatus where
  | starting
  | inProgress
  | completed
  | error
deriving DecidableEq, Repr

/-- The per-step state enum: pending, in-progress, completed, failed. -/
inductive StepState where
  | pending
  | inProgress
  | completed
  | failed
deriving DecidableEq, Repr

/-- The steps object of GenerationStatus: exactly five fixed keys. -/
structure Steps where
  uploadLogo : StepState
  analyzeLogo : StepState
  generateTheme : StepState
  createRepo : StepState
  deployPreview : StepState
deriving DecidableEq, Repr

/-- GitHubStatusUpdate: the webhook request body shape.  The status field
is kept as a raw String because the mapper treats it as an open string
(TypeScript union types are erased at runtime and the switch has a
default branch). -/
structure GitHubStatusUpdate where
  status : String
  client_name : String
  message : String
  timestamp : String
  pr_url : Option String := none
  preview_url : Option String := none
  error : Option String := none
deriving DecidableEq, Repr

/-- GenerationStatus: the stored progress record. -/
structure GenerationStatus where
  clientId : String
  status : LifecycleStatus
  progress : Int
  currentStep : String
  message : String
  previewUrl : Option String := none
  repositoryUrl : Option String := none
  error : Option String := none
  steps : Steps
  estimatedTimeRemaining : Option Int := none
  updatedAt : String
deriving DecidableEq, Repr

/-- The in-memory status store (const statusStore = new Map), embedded as
a function from client ids to optional records. -/
def StatusStore : Type := String → Option GenerationStatus

/-- Map.prototype.set: pointwise functional update of the store. -/
def StatusStore.set (store : StatusStore) (k : String) (v : GenerationStatus) : StatusStore :=
  fun q => if q = k then some v else store q

/-- The store at process start: no entries. -/
def StatusStore.empty : StatusStore := fun _ => none

/-! ## Status mapper (github-status.ts lines 61-144) -/

/-- The anonymous return type of mapGitHubStatus. -/
structure MappedStatus where
  status : LifecycleStatus
  progress : Int
  currentStep : String
  steps : Steps
deriving DecidableEq, Repr

/-- const defaultSteps: all five steps pending. -/
def defaultSteps : Steps :=
  { uploadLogo := .pending
    analyzeLogo := .pending
    generateTheme := .pending
    createRepo := .pending
    deployPreview := .pending }

/-- mapGitHubStatus: the switch over the external event name, embedded as
an if-chain in source order with the default branch last. -/
def mapGitHubStatus (githubStatus : String) : MappedStatus :=
  if githubStatus = "started" then
    { status := .starting, progress := 10, currentStep := "uploadLogo"
      steps := { defaultSteps with uploadLogo := .inProgress } }
  else if githubStatus = "logo_processed" then
    { status := .inProgress, progress := 25, currentStep := "analyzeLogo"
      steps := { defaultSteps with uploadLogo := .completed, analyzeLogo := .inProgress } }
  else if githubStatus = "logo_skipped" then
    { status := .inProgress, progress := 25, currentStep := "generateTheme"
      steps := { defaultSteps with
                  uploadLogo := .completed, analyzeLogo := .completed
                  generateTheme := .inProgress } }
  else if githubStatus = "content_generated" then
    { status := .inProgress, progress := 60, currentStep := "createRepo"
      steps := { defaultSteps with
                  uploadLogo := .completed, analyzeLogo := .completed
                  generateTheme := .completed, createRepo := .inProgress } }
  else if githubStatus = "completed" then
    { status := .completed, progress := 100, currentStep := "deployPreview"
      steps := { uploadLogo := .completed, analyzeLogo := .completed
                 generateTheme := .completed, createRepo := .completed
                 deployPreview := .completed } }
  else if githubStatus = "failed" then
    { status := .error, progress := 0, currentStep := "error", steps := defaultSteps }
  else
    { status := .inProgress, progress := 50, currentStep := "generateTheme"
      steps := { defaultSteps with generateTheme := .inProgress } }

/-! ## Time-remaining estimator (github-status.ts lines 147-155) -/

/-- calculateTimeRemaining.  The JavaScript arithmetic on the values this
function actually receives is exact (the true value of the rounded
expression is an integer), so the embedding uses rational arithmetic;
Math.round on nonnegative reals is round-half-up, which is Mathlib round. -/
def calculateTimeRemaining (progress : Int) : Int :=
  if progress ≥ 100 then 0
  else
    let totalEstimatedTime : ℚ := 300
    let remaining : ℚ := ((100 - (progress : ℚ)) / 100) * totalEstimatedTime
    max 0 (round remaining)

/-! ## Signature verification (github-status.ts lines 46-58) -/

/-- Result of verifyGitHubSignature: either a Boolean verdict, or the
exception crypto.timingSafeEqual throws when the two buffers have
different byte lengths. -/
inductive VerifyResult where
  | ok (b : Bool)
  | threw
deriving DecidableEq, Repr

/-- verifyGitHubSignature.  The HMAC-SHA256 hex digest is passed in as a
function (secret and message to lowercase hex string).  An empty secret
or an empty signature models the falsy guard and skips verification.
crypto.timingSafeEqual compares the UTF-8 byte buffers of the two
strings: it throws when the byte lengths differ, and otherwise returns
whether the strings are equal (UTF-8 encoding is injective). -/
def verifyGitHubSignature (hmacSha256Hex : String → String → String)
    (payload signature secret : String) : VerifyResult :=
  if secret = "" ∨ signature = "" then .ok true
  else
    let expectedSignature := "sha256=" ++ hmacSha256Hex secret payload
    if signature.utf8ByteSize = expectedSignature.utf8ByteSize then
      .ok (signature == expectedSignature)
    else .threw

/-! ## Webhook POST handler (github-status.ts lines 157-204) -/

/-- Server environment of the webhook endpoint: the optional signing
secret (empty string models an unset variable, both are falsy) and the
HMAC primitive. -/
structure WebhookEnv where
  webhookSecret : String
  hmacSha256Hex : String → String → String

/-- An HTTP response with a plain-text body. -/
structure HttpResponse where
  code : Nat
  body : String
deriving DecidableEq, Repr

/-- The GenerationStatus record the POST handler assembles from a parsed
status update (github-status.ts lines 172-187): mapper output plus
passthrough fields plus a freshly computed time estimate and timestamp. -/
def buildGenerationStatus (statusUpdate : GitHubStatusUpdate) (now : String) : GenerationStatus :=
  let mappedStatus := mapGitHubStatus statusUpdate.status
  { clientId := statusUpdate.client_name
    status := mappedStatus.status
    progress := mappedStatus.progress
    currentStep := mappedStatus.currentStep
    message := statusUpdate.message
    previewUrl := statusUpdate.preview_url
    repositoryUrl := statusUpdate.pr_url
    error := statusUpdate.error
    steps := mappedStatus.steps
    estimatedTimeRemaining := some (calculateTimeRemaining mappedStatus.progress)
    updatedAt := now }

/-- The POST handler.  parseJson models JSON.parse on the raw body (none
when the body is not parseable, which in the source throws and lands in
the catch).  now models new Date toISOString.  signatureHeader models
request.headers.get, which is null when the header is absent; the source
coalesces null to the empty string.  Returns the response together with
the store after the request. -/
def webhookPOST (env : WebhookEnv) (parseJson : String → Option GitHubStatusUpdate)
    (now : String) (payload : String) (signatureHeader : Option String)
    (store : StatusStore) : HttpResponse × StatusStore :=
  let signature := signatureHeader.getD ""
  let verdict :=
    if env.webhookSecret = "" then VerifyResult.ok true
    else verifyGitHubSignature env.hmacSha256Hex payload signature env.webhookSecret
  match verdict with
  | .threw => ({ code := 500, body := "Internal Server Error" }, store)
  | .ok false => ({ code := 401, body := "Unauthorized" }, store)
  | .ok true =>
    match parseJson payload with
    | none => ({ code := 500, body := "Internal Server Error" }, store)
    | some statusUpdate =>
      let generationStatus := buildGenerationStatus statusUpdate now
      ({ code := 200, body := "OK" },
       StatusStore.set store statusUpdate.client_name generationStatus)

/-! ## Webhook GET handler (github-status.ts lines 207-262) -/

/-- Result of the GET handler: a 400 when the clientId query parameter is
null or empty (both falsy), otherwise a 200 carrying a record. -/
inductive GetResult where
  | missingClientId
  | okRecord (st : GenerationStatus)
deriving DecidableEq, Repr

/-- HTTP status code of a GET result. -/
def GetResult.code : GetResult → Nat
  | .missingClientId => 400
  | .okRecord _ => 200

/-- The default record synthesized for an unknown clientId
(github-status.ts lines 225-240). -/
def defaultGenerationStatus (clientId : String) (now : String) : GenerationStatus :=
  { clientId := clientId
    status := .starting
    progress := 0
    currentStep := "uploadLogo"
    message := "Initializing website generation..."
    steps := defaultSteps
    estimatedTimeRemaining := some 300
    updatedAt := now }

/-- The GET handler.  clientIdParam models url.searchParams.get (null when
absent).  The handler never writes: the store it returns is the store it
was given, on every path. -/
def webhookGET (now : String) (clientIdParam : Option String)
    (store : StatusStore) : GetResult × StatusStore :=
  match clientIdParam with
  | none => (.missingClientId, store)
  | some clientId =>
    if clientId = "" then (.missingClientId, store)
    else
      match store clientId with
      | some status => (.okRecord status, store)
      | none => (.okRecord (defaultGenerationStatus clientId now), store)

/-! ## Form validation and client-id synthesis (generate.ts lines 30-62) -/

/-- The parsed request body of POST /generate.  The handler types it as
GenerateWebsiteRequest but JSON.parse performs no shape check, so every
field may be absent; absent and empty-string are the two falsy cases the
validator distinguishes from present data. -/
structure GenerateFormData where
  businessName : Option String := none
  description : Option String := none
  industry : Option String := none
  targetAudience : Option String := none
  services : Option (List String) := none
  email : Option String := none
  phone : Option String := none
  domain : Option String := none
  logoUrl : Option String := none
deriving DecidableEq, Repr

/-- JavaScript falsiness of an optional string field: undefined or empty. -/
def strFalsy : Option String → Bool
  | none => true
  | some s => s == ""

/-- String.prototype.trim on a character list: strip whitespace from both
ends. -/
def jsTrimList (l : List Char) : List Char :=
  ((l.dropWhile Char.isWhitespace).reverse.dropWhile Char.isWhitespace).reverse

/-- String.prototype.trim. -/
def jsTrim (s : String) : String := String.mk (jsTrimList s.toList)

/-- A character admitted by the regex class that excludes whitespace and
the at sign. -/
def isEmailChar (c : Char) : Bool := !c.isWhitespace && c != '@'

/-- The email shape test of generate.ts line 49, the regex
demanding one nonempty at-free whitespace-free run, an at sign, then a
nonempty run containing a dot with at least one admitted character on
each side.  A backtracking match of that anchored pattern exists exactly
when: the string has an at sign; everything before the first at sign is
nonempty and admitted; everything after it is at-free, whitespace-free
and has a dot that is neither its first nor its last character. -/
def emailShapeTest (s : String) : Bool :=
  let cs := s.toList
  let localPart := cs.takeWhile (fun c => c != '@')
  match cs.dropWhile (fun c => c != '@') with
  | [] => false
  | _ :: domainPart =>
    !localPart.isEmpty && localPart.all isEmailChar &&
    domainPart.all isEmailChar &&
    ((domainPart.drop 1).dropLast.contains '.')

/-- validateFormData (generate.ts lines 42-62): the four checks in source
order, each appending one message. -/
def validateFormData (d : GenerateFormData) : List String :=
  let e1 :=
    if strFalsy d.businessName = true ∨ (jsTrim (d.businessName.getD "")).length < 2 then
      ["Business name is required and must be at least 2 characters"]
    else []
  let e2 :=
    if strFalsy d.email = true ∨ emailShapeTest (d.email.getD "") = false then
      ["Valid email address is required"]
    else []
  let e3 :=
    if strFalsy d.industry = true ∨ (jsTrim (d.industry.getD "")).length < 2 then
      ["Industry is required"]
    else []
  let e4 :=
    match d.services with
    | none => ["At least one service must be specified"]
    | some l => if l.isEmpty then ["At least one service must be specified"] else []
  e1 ++ e2 ++ e3 ++ e4

/-- A lowercase ASCII letter or an ASCII digit: the class kept by the
replace regex of generateClientId. -/
def isLowerAlphaNum (c : Char) : Bool :=
  ('a' ≤ c && c ≤ 'z') || ('0' ≤ c && c ≤ '9')

/-- String.prototype.toLowerCase, embedded as a per-character lowercase
map. -/
def jsToLower (s : String) : String := String.mk (s.toList.map Char.toLower)

/-- The cleaned business name of generateClientId (generate.ts lines
33-36): lowercase, replace every character outside the kept class by a
dash, keep the first ten characters. -/
def cleanBusinessName (businessName : String) : String :=
  String.mk (((jsToLower businessName).toList.map
    (fun c => if isLowerAlphaNum c then c else '-')).take 10)

/-- generateClientId (generate.ts lines 30-39).  Date.now and the
Math.random base-36 suffix are passed in. -/
def generateClientId (businessName : String) (timestamp : Nat) (randomSuffix : String) : String :=
  cleanBusinessName businessName ++ "-" ++ toString timestamp ++ "-" ++ randomSuffix

/-! ## POST /generate handler (generate.ts lines 91-212) -/

/-- Outcome of the /generate handler, one constructor per return site. -/
inductive GenerateResult where
  | tokenMissing
  | bodyParseError
  | validationFailed (details : List String)
  | dispatchFailed (upstreamStatus : Nat)
  | ok (clientId : String)
deriving DecidableEq, Repr

/-- HTTP status code of each /generate outcome. -/
def GenerateResult.code : GenerateResult → Nat
  | .tokenMissing => 500
  | .bodyParseError => 500
  | .validationFailed _ => 400
  | .dispatchFailed _ => 500
  | .ok _ => 200

/-- The POST /generate handler.  githubToken is the environment token
(empty models unset, falsy); parseJson models request.json (none when
the body is not JSON, which throws into the catch); dispatchOk and
upstreamStatus model the fetch of the repository-dispatch API. -/
def generatePOST (githubToken : String)
    (parseJson : String → Option GenerateFormData)
    (dispatchOk : Bool) (upstreamStatus : Nat)
    (timestamp : Nat) (randomSuffix : String)
    (body : String) : GenerateResult :=
  if githubToken = "" then .tokenMissing
  else
    match parseJson body with
    | none => .bodyParseError
    | some formData =>
      let validationErrors := validateFormData formData
      if validationErrors ≠ [] then .validationFailed validationErrors
      else
        let clientId := generateClientId (formData.businessName.getD "") timestamp randomSuffix
        if dispatchOk then .ok clientId
        else .dispatchFailed upstreamStatus

/-! ## Concrete fixtures

Concrete stand-ins for the runtime services, used by the closed witness
and counterexample theorems.  Body strings are opaque tokens standing for
the JSON texts the modelled JSON.parse maps to the records below. -/

/-- A stand-in HMAC-SHA256 hex digest: a 64-character lowercase hex
string, the length every real SHA-256 hex digest has. -/
def sampleHmacHex : String → String → String := fun _ _ => String.mk (List.replicate 64 'a')

/-- Webhook environment with no signing secret configured. -/
def envNoSecret : WebhookEnv := { webhookSecret := "", hmacSha256Hex := sampleHmacHex }

/-- Webhook environment with a signing secret configured. -/
def envWithSecret : WebhookEnv := { webhookSecret := "topsecret", hmacSha256Hex := sampleHmacHex }

/-- A well-formed incorrect signature: right prefix and length, wrong
digest. -/
def wrongSig : String := "sha256=" ++ String.mk (List.replicate 64 'b')

/-- A started event for client-b. -/
def sampleUpdate : GitHubStatusUpdate :=
  { status := "started", client_name := "client-b", message := "Uploading logo"
    timestamp := "2024-05-01T10:00:00Z" }

/-- A completed event for client-b carrying terminal payloads. -/
def sampleUpdate2 : GitHubStatusUpdate :=
  { status := "completed", client_name := "client-b", message := "Done"
    timestamp := "2024-05-01T10:05:00Z"
    preview_url := some "https://x.test", pr_url := some "https://github.test/pr/1" }

/-- A failed event. -/
def failedUpdate : GitHubStatusUpdate :=
  { status := "failed", client_name := "client-f", message := "Generation failed"
    timestamp := "2024-05-01T10:02:00Z", error := some "exploded" }

/-- An event with an unrecognized status string. -/
def mysteryUpdate : GitHubStatusUpdate :=
  { status := "mystery", client_name := "client-m", message := "Hm"
    timestamp := "2024-05-01T10:03:00Z" }

/-- The modelled JSON.parse for the webhook bodies above; anything else
is not parseable. -/
def sampleParse : String → Option GitHubStatusUpdate := fun s =>
  if s = "body1" then some sampleUpdate
  else if s = "body2" then some sampleUpdate2
  else if s = "bodyF" then some failedUpdate
  else if s = "bodyM" then some mysteryUpdate
  else none

/-- A form payload passing every validation check. -/
def goodForm : GenerateFormData :=
  { businessName := some "Acme Corp", industry := some "Tech"
    services := some ["x"], email := some "a@b.co" }

/-- A form payload failing every validation check: one-character business
name, malformed email, absent industry, empty services. -/
def badForm : GenerateFormData :=
  { businessName := some "A", email := some "bad", industry := none, services := some [] }

/-- The modelled request.json for the generate bodies above. -/
def genParse : String → Option GenerateFormData := fun s =>
  if s = "good" then some goodForm
  else if s = "bad" then some badForm
  else none

/-! ## Handler reduction lemmas -/

/-- On integer progress the estimator is exactly linear: the rounded
rational is the integer 3 * (100 - progress), clamped below at 0, and the
clamp only bites at the 100 cutoff, which already returns 0. -/
theorem calculateTimeRemaining_eq (p : Int) :
    calculateTimeRemaining p = if 100 ≤ p then 0 else 3 * (100 - p) := by
  rcases le_or_lt 100 p with h | h
  · rw [if_pos h]
    unfold calculateTimeRemaining
    rw [if_pos h]
  · rw [if_neg (not_le.mpr h)]
    unfold calculateTimeRemaining
    rw [if_neg (not_le.mpr h)]
    show max 0 (round (((100 - (p : ℚ)) / 100) * 300)) = 3 * (100 - p)
    have h2 : ((100 - (p : ℚ)) / 100) * 300 = ((3 * (100 - p) : ℤ) : ℚ) := by
      push_cast
      ring
    rw [h2, round_intCast, max_eq_right (by omega)]

/-- Reading back the key just written returns the written record. -/
theorem StatusStore.get_set_self (store : StatusStore) (k : String) (v : GenerationStatus) :
    StatusStore.set store k v k = some v := by
  simp [StatusStore.set]

/-- Writing one key leaves every other key unread. -/
theorem StatusStore.get_set_ne (store : StatusStore) (k : String) (v : GenerationStatus)
    (q : String) (h : q ≠ k) : StatusStore.set store k v q = store q := by
  simp [StatusStore.set, h]

/-- Every string other than the six recognized event names maps to the
default row. -/
theorem mapGitHubStatus_default (s : String)
    (h1 : s ≠ "started") (h2 : s ≠ "logo_processed") (h3 : s ≠ "logo_skipped")
    (h4 : s ≠ "content_generated") (h5 : s ≠ "completed") (h6 : s ≠ "failed") :
    mapGitHubStatus s =
      { status := .inProgress, progress := 50, currentStep := "generateTheme"
        steps := { defaultSteps with generateTheme := .inProgress } } := by
  unfold mapGitHubStatus
  rw [if_neg h1, if_neg h2, if_neg h3, if_neg h4, if_neg h5, if_neg h6]

/-- An empty signature short-circuits verification to true, whatever the
secret and payload are. -/
theorem verifyGitHubSignature_empty_sig (hm : String → String → String) (p sec : String) :
    verifyGitHubSignature hm p "" sec = .ok true := by
  unfold verifyGitHubSignature
  rw [if_pos (Or.inr rfl)]

/-- When verification passes and the body parses, the POST handler
acknowledges with 200 and overwrites the record of the event's client. -/
theorem webhookPOST_accept (env : WebhookEnv) (parse : String → Option GitHubStatusUpdate)
    (now payload : String) (sigh : Option String) (store : StatusStore)
    (u : GitHubStatusUpdate)
    (hver : (if env.webhookSecret = "" then VerifyResult.ok true
             else verifyGitHubSignature env.hmacSha256Hex payload (sigh.getD "") env.webhookSecret)
            = VerifyResult.ok true)
    (hparse : parse payload = some u) :
    webhookPOST env parse now payload sigh store =
      ({ code := 200, body := "OK" },
       StatusStore.set store u.client_name (buildGenerationStatus u now)) := by
  simp only [webhookPOST, hver, hparse]

/-- When verification passes and the body does not parse, the POST handler
lands in the catch: 500 and an untouched store. -/
theorem webhookPOST_parse_fail (env : WebhookEnv) (parse : String → Option GitHubStatusUpdate)
    (now payload : String) (sigh : Option String) (store : StatusStore)
    (hver : (if env.webhookSecret = "" then VerifyResult.ok true
             else verifyGitHubSignature env.hmacSha256Hex payload (sigh.getD "") env.webhookSecret)
            = VerifyResult.ok true)
    (hparse : parse payload = none) :
    webhookPOST env parse now payload sigh store =
      ({ code := 500, body := "Internal Server Error" }, store) := by
  simp only [webhookPOST, hver, hparse]

/-- The POST handler can only write the key named by the parsed event:
every other key reads the same before and after, on every path. -/
theorem webhookPOST_frame (env : WebhookEnv) (parse : String → Option GitHubStatusUpdate)
    (now payload : String) (sigh : Option String) (store : StatusStore) (q : String)
    (h : ∀ u, parse payload = some u → u.client_name ≠ q) :
    (webhookPOST env parse now payload sigh store).2 q = store q := by
  simp only [webhookPOST]
  split
  · rfl
  · rfl
  · split
    · rfl
    · next u heq => exact StatusStore.get_set_ne store u.client_name _ q (Ne.symm (h u heq))

/-- The GET handler never writes: the store comes back as given. -/
theorem webhookGET_preserves (now : String) (p : Option String) (store : StatusStore) :
    (webhookGET now p store).2 = store := by
  unfold webhookGET
  split
  · rfl
  · split
    · rfl
    · split <;> rfl

/-- A query for a nonempty clientId with no stored record answers with
the synthesized default record and an untouched store. -/
theorem webhookGET_default (now : String) (cid : String) (store : StatusStore)
    (hcid : cid ≠ "") (habsent : store cid = none) :
    webhookGET now (some cid) store
      = (.okRecord (defaultGenerationStatus cid now), store) := by
  simp only [webhookGET]
  rw [if_neg hcid, habsent]

/-- A query for a nonempty clientId with a stored record returns it
verbatim. -/
theorem webhookGET_found (now : String) (cid : String) (store : StatusStore)
    (st : GenerationStatus) (hcid : cid ≠ "") (hfound : store cid = some st) :
    webhookGET now (some cid) store = (.okRecord st, store) := by
  simp only [webhookGET]
  rw [if_neg hcid, hfound]

/-- Trimming never lengthens a character list. -/
theorem jsTrimList_length_le (l : List Char) : (jsTrimList l).length ≤ l.length := by
  unfold jsTrimList
  rw [List.length_reverse]
  calc ((l.dropWhile Char.isWhitespace).reverse.dropWhile Char.isWhitespace).length
      ≤ (l.dropWhile Char.isWhitespace).reverse.length :=
        (List.dropWhile_sublist _).length_le
    _ = (l.dropWhile Char.isWhitespace).length := List.length_reverse _
    _ ≤ l.length := (List.dropWhile_sublist _).length_le

/-- Trimming never lengthens a string. -/
theorem jsTrim_length_le (s : String) : (jsTrim s).length ≤ s.length :=
  jsTrimList_length_le s.toList

/-- A payload whose business name is falsy or trims below two characters
fails validation. -/
theorem validateFormData_businessName_bad (d : GenerateFormData)
    (h : strFalsy d.businessName = true ∨ (jsTrim (d.businessName.getD "")).length < 2) :
    validateFormData d ≠ [] := by
  simp only [validateFormData, if_pos h]
  intro hc
  simp [List.append_eq_nil] at hc

/-- A payload whose email is falsy or fails the shape test fails
validation. -/
theorem validateFormData_email_bad (d : GenerateFormData)
    (h : strFalsy d.email = true ∨ emailShapeTest (d.email.getD "") = false) :
    validateFormData d ≠ [] := by
  simp only [validateFormData, if_pos h]
  intro hc
  simp [List.append_eq_nil] at hc

/-- A payload whose industry is absent fails validation. -/
theorem validateFormData_industry_bad (d : GenerateFormData)
    (h : d.industry = none) : validateFormData d ≠ [] := by
  have hcond : strFalsy d.industry = true ∨ (jsTrim (d.industry.getD "")).length < 2 :=
    Or.inl (by rw [h]; rfl)
  simp only [validateFormData, if_pos hcond]
  intro hc
  simp [List.append_eq_nil] at hc

/-- A payload whose services list is missing or empty fails validation. -/
theorem validateFormData_services_bad (d : GenerateFormData)
    (h : d.services = none ∨ d.services = some []) : validateFormData d ≠ [] := by
  rcases h with h | h <;>
    simp only [validateFormData, h] <;>
    · intro hc
      simp [List.append_eq_nil] at hc

/-- Nat.digitChar of a value below ten is a decimal digit character. -/
theorem digitChar_isDigit (m : Nat) (h : m < 10) : (Nat.digitChar m).isDigit = true := by
  interval_cases m <;> decide

/-- The digit accumulator of Nat.repr only ever prepends decimal digit
characters. -/
theorem toDigitsCore_digits (fuel : Nat) :
    ∀ (n : Nat) (ds : List Char), (∀ c ∈ ds, c.isDigit = true) →
      ∀ c ∈ Nat.toDigitsCore 10 fuel n ds, c.isDigit = true := by
  induction fuel with
  | zero =>
    intro n ds hds c hc
    exact hds c hc
  | succ fuel ih =>
    intro n ds hds c hc
    simp only [Nat.toDigitsCore] at hc
    have hcons : ∀ x ∈ Nat.digitChar (n % 10) :: ds, x.isDigit = true := by
      intro x hx
      rcases List.mem_cons.mp hx with hx | hx
      · rw [hx]
        exact digitChar_isDigit _ (Nat.mod_lt _ (by norm_num))
      · exact hds x hx
    split at hc
    · exact hcons c hc
    · exact ih (n / 10) _ hcons c hc

/-- The digit accumulator never returns an empty list when fed a nonempty
one. -/
theorem toDigitsCore_ne_nil (fuel : Nat) :
    ∀ (n : Nat) (ds : List Char), ds ≠ [] → Nat.toDigitsCore 10 fuel n ds ≠ [] := by
  induction fuel with
  | zero =>
    intro n ds hds
    exact hds
  | succ fuel ih =>
    intro n ds hds
    simp only [Nat.toDigitsCore]
    split
    · simp
    · exact ih (n / 10) _ (by simp)

/-- The decimal rendering of a natural number consists of digit
characters only. -/
theorem natRepr_digits (n : Nat) : ∀ c ∈ (Nat.repr n).toList, c.isDigit = true := by
  intro c hc
  have : c ∈ Nat.toDigitsCore 10 (n + 1) n [] := hc
  exact toDigitsCore_digits (n + 1) n [] (by simp) c this

/-- The decimal rendering of a natural number is nonempty. -/
theorem natRepr_ne_empty (n : Nat) : Nat.repr n ≠ "" := by
  intro h
  have hlist : Nat.toDigitsCore 10 (n + 1) n [] = [] := congrArg String.toList h
  revert hlist
  simp only [Nat.toDigitsCore]
  split
  · simp
  · exact toDigitsCore_ne_nil n (n / 10) _ (by simp)

/-- Every character of a cleaned business name is a kept lowercase
alphanumeric or the replacement dash. -/
theorem cleanBusinessName_chars (bn : String) :
    ∀ c ∈ (cleanBusinessName bn).toList, isLowerAlphaNum c = true ∨ c = '-' := by
  intro c hc
  have hc2 : c ∈ (jsToLower bn).toList.map
      (fun c => if isLowerAlphaNum c then c else '-') :=
    List.take_subset 10 _ hc
  rcases List.mem_map.mp hc2 with ⟨a, _, rfl⟩
  by_cases h : isLowerAlphaNum a = true
  · rw [if_pos h]
    exact Or.inl h
  · rw [if_neg h]
    exact Or.inr rfl

/-! ## Claim theorems -/

/-- C1: mapGitHubStatus returns exactly the section 4.1 table row for each
of the six named external event names, and the default row for every
other string; being a total Lean function, it never fails on any input. -/
theorem claim_C1_mapper_table :
    mapGitHubStatus "started" =
      { status := .starting, progress := 10, currentStep := "uploadLogo"
        steps := { defaultSteps with uploadLogo := .inProgress } } ∧
    mapGitHubStatus "logo_processed" =
      { status := .inProgress, progress := 25, currentStep := "analyzeLogo"
        steps := { defaultSteps with uploadLogo := .completed, analyzeLogo := .inProgress } } ∧
    mapGitHubStatus "logo_skipped" =
      { status := .inProgress, progress := 25, currentStep := "generateTheme"
        steps := { defaultSteps with
                    uploadLogo := .completed, analyzeLogo := .completed
                    generateTheme := .inProgress } } ∧
    mapGitHubStatus "content_generated" =
      { status := .inProgress, progress := 60, currentStep := "createRepo"
        steps := { defaultSteps with
                    uploadLogo := .completed, analyzeLogo := .completed
                    generateTheme := .completed, createRepo := .inProgress } } ∧
    mapGitHubStatus "completed" =
      { status := .completed, progress := 100, currentStep := "deployPreview"
        steps := { uploadLogo := .completed, analyzeLogo := .completed
                   generateTheme := .completed, createRepo := .completed
                   deployPreview := .completed } } ∧
    mapGitHubStatus "failed" =
      { status := .error, progress := 0, currentStep := "error", steps := defaultSteps } ∧
    ∀ s : String, s ≠ "started" → s ≠ "logo_processed" → s ≠ "logo_skipped" →
      s ≠ "content_generated" → s ≠ "completed" → s ≠ "failed" →
      mapGitHubStatus s =
        { status := .inProgress, progress := 50, currentStep := "generateTheme"
          steps := { defaultSteps with generateTheme := .inProgress } } := by
  refine ⟨by decide, by decide, by decide, by decide, by decide, by decide, ?_⟩
  intro s h1 h2 h3 h4 h5 h6
  unfold mapGitHubStatus
  rw [if_neg h1, if_neg h2, if_neg h3, if_neg h4, if_neg h5, if_neg h6]

/-- C1 witness: the default row at the concrete unrecognized input. -/
theorem claim_C1_witness :
    mapGitHubStatus "unknown_event" =
      { status := .inProgress, progress := 50, currentStep := "generateTheme"
        steps := { defaultSteps with generateTheme := .inProgress } } :=
  claim_C1_mapper_table.2.2.2.2.2.2 "unknown_event"
    (by decide) (by decide) (by decide) (by decide) (by decide) (by decide)

/-- C6: calculateTimeRemaining equals max 0 (round ((100 - p) / 100 * 300))
below 100 and is 0 at or above 100; the endpoint values are 0 at 100 and
300 at 0; the result is never negative; and the function is monotonically
non-increasing in progress. -/
theorem claim_C6_time_remaining :
    (∀ p : Int, p < 100 →
      calculateTimeRemaining p = max 0 (round (((100 - (p : ℚ)) / 100) * 300))) ∧
    (∀ p : Int, 100 ≤ p → calculateTimeRemaining p = 0) ∧
    calculateTimeRemaining 100 = 0 ∧
    calculateTimeRemaining 0 = 300 ∧
    (∀ p : Int, 0 ≤ calculateTimeRemaining p) ∧
    (∀ p q : Int, p ≤ q → calculateTimeRemaining q ≤ calculateTimeRemaining p) := by
  refine ⟨?_, ?_, ?_, ?_, ?_, ?_⟩
  · intro p h
    unfold calculateTimeRemaining
    rw [if_neg (not_le.mpr h)]
  · intro p h
    unfold calculateTimeRemaining
    rw [if_pos h]
  · rw [calculateTimeRemaining_eq]
    norm_num
  · rw [calculateTimeRemaining_eq]
    norm_num
  · intro p
    rw [calculateTimeRemaining_eq]
    split <;> omega
  · intro p q h
    rw [calculateTimeRemaining_eq, calculateTimeRemaining_eq]
    split <;> split <;> omega

/-- C6 witness: the clamp formula at 40, the cutoff at 120, monotonicity
between 40 and 60. -/
theorem claim_C6_witness :
    calculateTimeRemaining 40 = max 0 (round (((100 - ((40 : Int) : ℚ)) / 100) * 300)) ∧
    calculateTimeRemaining 120 = 0 ∧
    calculateTimeRemaining 60 ≤ calculateTimeRemaining 40 :=
  ⟨claim_C6_time_remaining.1 40 (by norm_num),
   claim_C6_time_remaining.2.1 120 (by norm_num),
   claim_C6_time_remaining.2.2.2.2.2 40 60 (by norm_num)⟩

/-- C2 counterexample: with a secret configured, a request carrying the
incorrect signature sha256=bogus is answered 500, not 401 (the length
mismatch makes timingSafeEqual throw into the catch); and a request
carrying an empty signature, also incorrect as a string, is accepted
outright: 200 and a store mutation. -/
theorem claim_C2_counterexample :
    envWithSecret.webhookSecret ≠ "" ∧
    "sha256=bogus" ≠ "sha256=" ++ envWithSecret.hmacSha256Hex envWithSecret.webhookSecret "body1" ∧
    (webhookPOST envWithSecret sampleParse "t1" "body1" (some "sha256=bogus")
        StatusStore.empty).1.code = 500 ∧
    "" ≠ "sha256=" ++ envWithSecret.hmacSha256Hex envWithSecret.webhookSecret "body1" ∧
    (webhookPOST envWithSecret sampleParse "t1" "body1" (some "")
        StatusStore.empty).1.code = 200 ∧
    (webhookPOST envWithSecret sampleParse "t1" "body1" (some "")
        StatusStore.empty).2 "client-b"
      = some (buildGenerationStatus sampleUpdate "t1") := by
  have hacc := webhookPOST_accept envWithSecret sampleParse "t1" "body1" (some "")
    StatusStore.empty sampleUpdate (by decide) (by decide)
  refine ⟨by decide, by decide, by decide, by decide, ?_, ?_⟩
  · rw [hacc]
  · rw [hacc]
    show StatusStore.set StatusStore.empty sampleUpdate.client_name
        (buildGenerationStatus sampleUpdate "t1") sampleUpdate.client_name
      = some (buildGenerationStatus sampleUpdate "t1")
    exact StatusStore.get_set_self _ _ _

/-- C2 (amended): with a secret configured, a request whose signature is
non-empty, incorrect, and of the same byte length as the expected
sha256-prefixed digest is rejected 401 with the store untouched; with no
secret configured the response does not depend on the signature at all
and is never 401. -/
theorem claim_C2_amended_signature (env : WebhookEnv)
    (parse : String → Option GitHubStatusUpdate) (now payload sig : String)
    (store : StatusStore)
    (hsecret : env.webhookSecret ≠ "") (hne : sig ≠ "")
    (hwrong : sig ≠ "sha256=" ++ env.hmacSha256Hex env.webhookSecret payload)
    (hlen : sig.utf8ByteSize
      = ("sha256=" ++ env.hmacSha256Hex env.webhookSecret payload).utf8ByteSize) :
    webhookPOST env parse now payload (some sig) store
      = ({ code := 401, body := "Unauthorized" }, store) ∧
    ∀ (env2 : WebhookEnv) (sig1 sig2 : Option String),
      env2.webhookSecret = "" →
      webhookPOST env2 parse now payload sig1 store
        = webhookPOST env2 parse now payload sig2 store ∧
      (webhookPOST env2 parse now payload sig1 store).1.code ≠ 401 := by
  constructor
  · have hv : verifyGitHubSignature env.hmacSha256Hex payload sig env.webhookSecret
        = .ok false := by
      unfold verifyGitHubSignature
      rw [if_neg (not_or.mpr ⟨hsecret, hne⟩)]
      show (if sig.utf8ByteSize
              = ("sha256=" ++ env.hmacSha256Hex env.webhookSecret payload).utf8ByteSize
            then VerifyResult.ok (sig == "sha256=" ++ env.hmacSha256Hex env.webhookSecret payload)
            else .threw) = .ok false
      rw [if_pos hlen]
      simp [hwrong]
    simp only [webhookPOST, Option.getD_some, if_neg hsecret, hv]
  · intro env2 sig1 sig2 h2
    constructor
    · simp only [webhookPOST, if_pos h2]
    · simp only [webhookPOST, if_pos h2]
      rcases hp : parse payload with _ | u
      · show (500 : Nat) ≠ 401
        decide
      · show (200 : Nat) ≠ 401
        decide

/-- C2 witness: with the secret configured, the well-formed wrong
signature gets 401 and an unchanged store; without a secret the same
signature is not rejected. -/
theorem claim_C2_witness :
    webhookPOST envWithSecret sampleParse "t1" "body1" (some wrongSig) StatusStore.empty
      = ({ code := 401, body := "Unauthorized" }, StatusStore.empty) ∧
    (webhookPOST envNoSecret sampleParse "t1" "body1" (some wrongSig)
        StatusStore.empty).1.code ≠ 401 := by
  have h := claim_C2_amended_signature envWithSecret sampleParse "t1" "body1" wrongSig
    StatusStore.empty (by decide) (by decide) (by decide) (by decide)
  exact ⟨h.1, (h.2 envNoSecret (some wrongSig) none rfl).2⟩

/-- C3: querying a clientId that was never written returns 200 with the
synthesized default record (starting, progress 0, all steps pending) and
does not insert: the store comes back as it was, a second identical query
answers identically, and a webhook for a different clientId leaves the
queried id absent and the default answer intact. -/
theorem claim_C3_unknown_query (nowQ nowQ2 nowP : String) (store : StatusStore) (cid : String)
    (hcid : cid ≠ "") (habsent : store cid = none) :
    webhookGET nowQ (some cid) store
      = (.okRecord (defaultGenerationStatus cid nowQ), store) ∧
    (defaultGenerationStatus cid nowQ).status = .starting ∧
    (defaultGenerationStatus cid nowQ).progress = 0 ∧
    (defaultGenerationStatus cid nowQ).steps = defaultSteps ∧
    webhookGET nowQ (some cid) ((webhookGET nowQ2 (some cid) store).2)
      = (.okRecord (defaultGenerationStatus cid nowQ), store) ∧
    ∀ (env : WebhookEnv) (parse : String → Option GitHubStatusUpdate)
      (payload : String) (sigh : Option String) (u : GitHubStatusUpdate),
      parse payload = some u → u.client_name ≠ cid →
      (webhookPOST env parse nowP payload sigh store).2 cid = none ∧
      webhookGET nowQ (some cid) ((webhookPOST env parse nowP payload sigh store).2)
        = (.okRecord (defaultGenerationStatus cid nowQ),
           (webhookPOST env parse nowP payload sigh store).2) := by
  refine ⟨webhookGET_default nowQ cid store hcid habsent, rfl, rfl, rfl, ?_, ?_⟩
  · rw [webhookGET_preserves]
    exact webhookGET_default nowQ cid store hcid habsent
  · intro env parse payload sigh u hparse hnecid
    have hframe : (webhookPOST env parse nowP payload sigh store).2 cid = none := by
      rw [webhookPOST_frame env parse nowP payload sigh store cid ?_]
      · exact habsent
      · intro v hv
        rw [hparse] at hv
        injection hv with h
        exact h ▸ hnecid
    exact ⟨hframe, webhookGET_default nowQ cid _ hcid hframe⟩

/-- C3 witness: the unknown id client-a on the empty store, and the frame
against a webhook for client-b. -/
theorem claim_C3_witness :
    webhookGET "q1" (some "client-a") StatusStore.empty
      = (.okRecord (defaultGenerationStatus "client-a" "q1"), StatusStore.empty) ∧
    (webhookPOST envNoSecret sampleParse "p1" "body1" none StatusStore.empty).2 "client-a"
      = none := by
  have h := claim_C3_unknown_query "q1" "q2" "p1" StatusStore.empty "client-a"
    (by decide) rfl
  exact ⟨h.1, (h.2.2.2.2.2 envNoSecret sampleParse "body1" none sampleUpdate
    (by decide) (by decide)).1⟩

/-- C4: after two webhook events for the same clientId, the stored record
is assembled from the second event alone — a full overwrite with no field
merging — and the query returns exactly that record. -/
theorem claim_C4_overwrite (env : WebhookEnv) (parse : String → Option GitHubStatusUpdate)
    (now1 now2 nowG p1 p2 : String) (sig1 sig2 : Option String) (store : StatusStore)
    (u1 u2 : GitHubStatusUpdate)
    (hsecret : env.webhookSecret = "") (h1 : parse p1 = some u1) (h2 : parse p2 = some u2)
    (hsame : u2.client_name = u1.client_name) :
    (webhookPOST env parse now2 p2 sig2
        ((webhookPOST env parse now1 p1 sig1 store).2)).2 u1.client_name
      = some { clientId := u2.client_name
               status := (mapGitHubStatus u2.status).status
               progress := (mapGitHubStatus u2.status).progress
               currentStep := (mapGitHubStatus u2.status).currentStep
               message := u2.message
               previewUrl := u2.preview_url
               repositoryUrl := u2.pr_url
               error := u2.error
               steps := (mapGitHubStatus u2.status).steps
               estimatedTimeRemaining :=
                 some (calculateTimeRemaining (mapGitHubStatus u2.status).progress)
               updatedAt := now2 } ∧
    (u1.client_name ≠ "" →
      webhookGET nowG (some u1.client_name)
          ((webhookPOST env parse now2 p2 sig2
              ((webhookPOST env parse now1 p1 sig1 store).2)).2)
        = (.okRecord { clientId := u2.client_name
                       status := (mapGitHubStatus u2.status).status
                       progress := (mapGitHubStatus u2.status).progress
                       currentStep := (mapGitHubStatus u2.status).currentStep
                       message := u2.message
                       previewUrl := u2.preview_url
                       repositoryUrl := u2.pr_url
                       error := u2.error
                       steps := (mapGitHubStatus u2.status).steps
                       estimatedTimeRemaining :=
                         some (calculateTimeRemaining (mapGitHubStatus u2.status).progress)
                       updatedAt := now2 },
           (webhookPOST env parse now2 p2 sig2
              ((webhookPOST env parse now1 p1 sig1 store).2)).2)) := by
  have ha2 := webhookPOST_accept env parse now2 p2 sig2
    ((webhookPOST env parse now1 p1 sig1 store).2) u2 (by simp [hsecret]) h2
  constructor
  · rw [ha2, ← hsame]
    exact StatusStore.get_set_self _ _ _
  · intro hcid
    rw [ha2]
    have hfound : StatusStore.set ((webhookPOST env parse now1 p1 sig1 store).2)
        u2.client_name (buildGenerationStatus u2 now2) u1.client_name
        = some (buildGenerationStatus u2 now2) := by
      rw [← hsame]
      exact StatusStore.get_set_self _ _ _
    exact webhookGET_found nowG u1.client_name _ _ hcid hfound

/-- C4 witness: a started then a completed event for client-b; the query
shows only the completed-event record. -/
theorem claim_C4_witness :
    (webhookPOST envNoSecret sampleParse "t2" "body2"
        none ((webhookPOST envNoSecret sampleParse "t1" "body1" none StatusStore.empty).2)).2
        "client-b"
      = some { clientId := sampleUpdate2.client_name
               status := (mapGitHubStatus sampleUpdate2.status).status
               progress := (mapGitHubStatus sampleUpdate2.status).progress
               currentStep := (mapGitHubStatus sampleUpdate2.status).currentStep
               message := sampleUpdate2.message
               previewUrl := sampleUpdate2.preview_url
               repositoryUrl := sampleUpdate2.pr_url
               error := sampleUpdate2.error
               steps := (mapGitHubStatus sampleUpdate2.status).steps
               estimatedTimeRemaining :=
                 some (calculateTimeRemaining (mapGitHubStatus sampleUpdate2.status).progress)
               updatedAt := "t2" } :=
  (claim_C4_overwrite envNoSecret sampleParse "t1" "t2" "tG" "body1" "body2" none none
    StatusStore.empty sampleUpdate sampleUpdate2 rfl (by decide) (by decide) rfl).1

/-- C5: posting a webhook event for a clientId and then querying that
clientId returns 200 with a record whose derived fields are exactly the
mapper output for the event status, and whose passthrough fields come
from the event body. -/
theorem claim_C5_post_then_get (env : WebhookEnv)
    (parse : String → Option GitHubStatusUpdate) (nowP nowG payload : String)
    (sigh : Option String) (store : StatusStore) (u : GitHubStatusUpdate)
    (hsecret : env.webhookSecret = "") (hparse : parse payload = some u)
    (hcid : u.client_name ≠ "") :
    (webhookPOST env parse nowP payload sigh store).1 = { code := 200, body := "OK" } ∧
    webhookGET nowG (some u.client_name) ((webhookPOST env parse nowP payload sigh store).2)
      = (.okRecord { clientId := u.client_name
                     status := (mapGitHubStatus u.status).status
                     progress := (mapGitHubStatus u.status).progress
                     currentStep := (mapGitHubStatus u.status).currentStep
                     message := u.message
                     previewUrl := u.preview_url
                     repositoryUrl := u.pr_url
                     error := u.error
                     steps := (mapGitHubStatus u.status).steps
                     estimatedTimeRemaining :=
                       some (calculateTimeRemaining (mapGitHubStatus u.status).progress)
                     updatedAt := nowP },
         (webhookPOST env parse nowP payload sigh store).2) := by
  have hacc := webhookPOST_accept env parse nowP payload sigh store u (by simp [hsecret]) hparse
  constructor
  · rw [hacc]
  · rw [hacc]
    exact webhookGET_found nowG u.client_name _ _ hcid (StatusStore.get_set_self _ _ _)

/-- C5 witness: the started event for client-b, then the query. -/
theorem claim_C5_witness :
    webhookGET "tG" (some sampleUpdate.client_name)
        ((webhookPOST envNoSecret sampleParse "tP" "body1" none StatusStore.empty).2)
      = (.okRecord { clientId := sampleUpdate.client_name
                     status := (mapGitHubStatus sampleUpdate.status).status
                     progress := (mapGitHubStatus sampleUpdate.status).progress
                     currentStep := (mapGitHubStatus sampleUpdate.status).currentStep
                     message := sampleUpdate.message
                     previewUrl := sampleUpdate.preview_url
                     repositoryUrl := sampleUpdate.pr_url
                     error := sampleUpdate.error
                     steps := (mapGitHubStatus sampleUpdate.status).steps
                     estimatedTimeRemaining :=
                       some (calculateTimeRemaining (mapGitHubStatus sampleUpdate.status).progress)
                     updatedAt := "tP" },
         (webhookPOST envNoSecret sampleParse "tP" "body1" none StatusStore.empty).2) :=
  (claim_C5_post_then_get envNoSecret sampleParse "tP" "tG" "body1" none StatusStore.empty
    sampleUpdate rfl (by decide) (by decide)).2

/-- C7: a webhook POST whose body does not parse as JSON answers 500 with
the generic message and an untouched store; and on every non-200 answer
the handler left the store untouched and replied with one of the two
generic error responses. -/
theorem claim_C7_error_handling (env : WebhookEnv)
    (parse : String → Option GitHubStatusUpdate) (now payload : String)
    (sigh : Option String) (store : StatusStore) :
    ((if env.webhookSecret = "" then VerifyResult.ok true
      else verifyGitHubSignature env.hmacSha256Hex payload (sigh.getD "") env.webhookSecret)
        = VerifyResult.ok true →
      parse payload = none →
      webhookPOST env parse now payload sigh store
        = ({ code := 500, body := "Internal Server Error" }, store)) ∧
    ((webhookPOST env parse now payload sigh store).1.code ≠ 200 →
      (webhookPOST env parse now payload sigh store).2 = store ∧
      ((webhookPOST env parse now payload sigh store).1
          = { code := 401, body := "Unauthorized" } ∨
       (webhookPOST env parse now payload sigh store).1
          = { code := 500, body := "Internal Server Error" })) := by
  constructor
  · intro hver hparse
    exact webhookPOST_parse_fail env parse now payload sigh store hver hparse
  · intro hne
    rcases hv : (if env.webhookSecret = "" then VerifyResult.ok true
        else verifyGitHubSignature env.hmacSha256Hex payload (sigh.getD "") env.webhookSecret)
      with b | _
    · cases b
      · have heq : webhookPOST env parse now payload sigh store
            = ({ code := 401, body := "Unauthorized" }, store) := by
          simp only [webhookPOST, hv]
        rw [heq]
        exact ⟨rfl, Or.inl rfl⟩
      · rcases hp : parse payload with _ | u
        · have heq := webhookPOST_parse_fail env parse now payload sigh store hv hp
          rw [heq]
          exact ⟨rfl, Or.inr rfl⟩
        · have heq := webhookPOST_accept env parse now payload sigh store u hv hp
          rw [heq] at hne
          exact absurd rfl hne
    · have heq : webhookPOST env parse now payload sigh store
          = ({ code := 500, body := "Internal Server Error" }, store) := by
        simp only [webhookPOST, hv]
      rw [heq]
      exact ⟨rfl, Or.inr rfl⟩

/-- C7 witness: an unparseable body answers 500 and leaves the empty
store empty. -/
theorem claim_C7_witness :
    webhookPOST envNoSecret sampleParse "tP" "garbage" none StatusStore.empty
      = ({ code := 500, body := "Internal Server Error" }, StatusStore.empty) ∧
    (webhookPOST envNoSecret sampleParse "tP" "garbage" none StatusStore.empty).2
      = StatusStore.empty := by
  have h := claim_C7_error_handling envNoSecret sampleParse "tP" "garbage" none
    StatusStore.empty
  have h1 := h.1 (by decide) (by decide)
  exact ⟨h1, (h.2 (by rw [h1]; decide)).1⟩

/-- C9: an absent signature header — read back as the empty string — makes
verifyGitHubSignature return true for every payload and secret, so even
with a secret configured the unsigned request is processed, answers 200
OK, and overwrites the record of the event's client. -/
theorem claim_C9_unsigned_accepted (env : WebhookEnv)
    (parse : String → Option GitHubStatusUpdate) (now payload : String)
    (store : StatusStore) (u : GitHubStatusUpdate) (hparse : parse payload = some u) :
    (∀ (hm : String → String → String) (p sec : String),
      verifyGitHubSignature hm p "" sec = .ok true) ∧
    webhookPOST env parse now payload none store
      = ({ code := 200, body := "OK" },
         StatusStore.set store u.client_name (buildGenerationStatus u now)) := by
  refine ⟨verifyGitHubSignature_empty_sig, ?_⟩
  refine webhookPOST_accept env parse now payload none store u ?_ hparse
  by_cases h : env.webhookSecret = ""
  · rw [if_pos h]
  · rw [if_neg h]
    exact verifyGitHubSignature_empty_sig _ _ _

/-- C9 witness: the secret-configured environment accepts the unsigned
started event and stores its record. -/
theorem claim_C9_witness :
    verifyGitHubSignature sampleHmacHex "payload" "" "topsecret" = .ok true ∧
    webhookPOST envWithSecret sampleParse "tP" "body1" none StatusStore.empty
      = ({ code := 200, body := "OK" },
         StatusStore.set StatusStore.empty sampleUpdate.client_name
           (buildGenerationStatus sampleUpdate "tP")) := by
  have h := claim_C9_unsigned_accepted envWithSecret sampleParse "tP" "body1"
    StatusStore.empty sampleUpdate (by decide)
  exact ⟨h.1 sampleHmacHex "payload" "topsecret", h.2⟩

/-- C10: a failed event stores a record whose estimatedTimeRemaining is
300 seconds (the mapper sends progress to 0 and the estimate is computed
from that), and an unrecognized event stores 150; the errored record thus
reports five minutes remaining, not 0. -/
theorem claim_C10_failed_estimate (env : WebhookEnv)
    (parse : String → Option GitHubStatusUpdate) (now payload : String)
    (sigh : Option String) (store : StatusStore) (u : GitHubStatusUpdate)
    (hsecret : env.webhookSecret = "") (hparse : parse payload = some u) :
    (u.status = "failed" →
      (webhookPOST env parse now payload sigh store).2 u.client_name
        = some (buildGenerationStatus u now) ∧
      (buildGenerationStatus u now).status = .error ∧
      (buildGenerationStatus u now).progress = 0 ∧
      (buildGenerationStatus u now).estimatedTimeRemaining = some 300) ∧
    (u.status ≠ "started" → u.status ≠ "logo_processed" → u.status ≠ "logo_skipped" →
     u.status ≠ "content_generated" → u.status ≠ "completed" → u.status ≠ "failed" →
      (webhookPOST env parse now payload sigh store).2 u.client_name
        = some (buildGenerationStatus u now) ∧
      (buildGenerationStatus u now).estimatedTimeRemaining = some 150) := by
  have hacc := webhookPOST_accept env parse now payload sigh store u (by simp [hsecret]) hparse
  have hstored : (webhookPOST env parse now payload sigh store).2 u.client_name
      = some (buildGenerationStatus u now) := by
    rw [hacc]
    exact StatusStore.get_set_self _ _ _
  constructor
  · intro hf
    refine ⟨hstored, ?_, ?_, ?_⟩
    · show (mapGitHubStatus u.status).status = .error
      rw [hf]
      decide
    · show (mapGitHubStatus u.status).progress = 0
      rw [hf]
      decide
    · show some (calculateTimeRemaining (mapGitHubStatus u.status).progress) = some 300
      rw [hf]
      have hp : (mapGitHubStatus "failed").progress = 0 := by decide
      rw [hp, calculateTimeRemaining_eq]
      norm_num
  · intro hn1 hn2 hn3 hn4 hn5 hn6
    refine ⟨hstored, ?_⟩
    show some (calculateTimeRemaining (mapGitHubStatus u.status).progress) = some 150
    rw [mapGitHubStatus_default u.status hn1 hn2 hn3 hn4 hn5 hn6]
    show some (calculateTimeRemaining 50) = some 150
    rw [calculateTimeRemaining_eq]
    norm_num

/-- C10 witness: the failed event stores a 300-second estimate; the
mystery event stores 150. -/
theorem claim_C10_witness :
    (webhookPOST envNoSecret sampleParse "tP" "bodyF" none StatusStore.empty).2
        failedUpdate.client_name
      = some (buildGenerationStatus failedUpdate "tP") ∧
    (buildGenerationStatus failedUpdate "tP").estimatedTimeRemaining = some 300 ∧
    (buildGenerationStatus mysteryUpdate "tP").estimatedTimeRemaining = some 150 := by
  have hf := claim_C10_failed_estimate envNoSecret sampleParse "tP" "bodyF" none
    StatusStore.empty failedUpdate rfl (by decide)
  have hm := claim_C10_failed_estimate envNoSecret sampleParse "tP" "bodyM" none
    StatusStore.empty mysteryUpdate rfl (by decide)
  exact ⟨(hf.1 rfl).1, (hf.1 rfl).2.2.2,
    (hm.2 (by decide) (by decide) (by decide) (by decide) (by decide) (by decide)).2⟩

/-- The /generate handler on a payload failing validation: 400 with the
validation details. -/
theorem generatePOST_invalid (githubToken : String)
    (parse : String → Option GenerateFormData) (dispatchOk : Bool) (upstreamStatus : Nat)
    (timestamp : Nat) (randomSuffix : String) (body : String) (formData : GenerateFormData)
    (htoken : githubToken ≠ "") (hparse : parse body = some formData)
    (hbad : validateFormData formData ≠ []) :
    generatePOST githubToken parse dispatchOk upstreamStatus timestamp randomSuffix body
      = .validationFailed (validateFormData formData) := by
  simp only [generatePOST, if_neg htoken, hparse]
  rw [if_pos hbad]

/-- The /generate handler on a payload passing validation, with the
dispatch succeeding: 200 with the synthesized clientId. -/
theorem generatePOST_valid (githubToken : String)
    (parse : String → Option GenerateFormData) (dispatchOk : Bool) (upstreamStatus : Nat)
    (timestamp : Nat) (randomSuffix : String) (body : String) (formData : GenerateFormData)
    (htoken : githubToken ≠ "") (hparse : parse body = some formData)
    (hval : validateFormData formData = []) (hdisp : dispatchOk = true) :
    generatePOST githubToken parse dispatchOk upstreamStatus timestamp randomSuffix body
      = .ok (generateClientId (formData.businessName.getD "") timestamp randomSuffix) := by
  simp only [generatePOST, if_neg htoken, hparse]
  rw [if_neg (by rw [hval]; exact fun hc => hc rfl), if_pos hdisp]

/-- C8: POST /generate answers 400 with a non-empty details list whenever
the business name has one character, or the email is falsy or fails the
shape test, or the services list is missing or empty, or the industry is
absent; and on a payload passing validation (with the dispatch
succeeding) it answers 200 with a clientId of the shape
slug-digits-suffix, the slug derived from the business name over the
lowercase-alphanumeric-or-dash alphabet and the middle part a nonempty
run of decimal digits. -/
theorem claim_C8_generate (githubToken : String)
    (parse : String → Option GenerateFormData) (dispatchOk : Bool) (upstreamStatus : Nat)
    (timestamp : Nat) (randomSuffix : String) (body : String) (formData : GenerateFormData)
    (htoken : githubToken ≠ "") (hparse : parse body = some formData) :
    (∀ s, formData.businessName = some s → s.length = 1 →
      generatePOST githubToken parse dispatchOk upstreamStatus timestamp randomSuffix body
        = .validationFailed (validateFormData formData) ∧
      validateFormData formData ≠ []) ∧
    ((strFalsy formData.email = true ∨ emailShapeTest (formData.email.getD "") = false) →
      generatePOST githubToken parse dispatchOk upstreamStatus timestamp randomSuffix body
        = .validationFailed (validateFormData formData) ∧
      validateFormData formData ≠ []) ∧
    ((formData.services = none ∨ formData.services = some []) →
      generatePOST githubToken parse dispatchOk upstreamStatus timestamp randomSuffix body
        = .validationFailed (validateFormData formData) ∧
      validateFormData formData ≠ []) ∧
    (formData.industry = none →
      generatePOST githubToken parse dispatchOk upstreamStatus timestamp randomSuffix body
        = .validationFailed (validateFormData formData) ∧
      validateFormData formData ≠ []) ∧
    (∀ details : List String, (GenerateResult.validationFailed details).code = 400) ∧
    (validateFormData formData = [] → dispatchOk = true →
      generatePOST githubToken parse dispatchOk upstreamStatus timestamp randomSuffix body
        = .ok (generateClientId (formData.businessName.getD "") timestamp randomSuffix) ∧
      generateClientId (formData.businessName.getD "") timestamp randomSuffix
        = cleanBusinessName (formData.businessName.getD "") ++ "-"
            ++ Nat.repr timestamp ++ "-" ++ randomSuffix ∧
      (∀ c ∈ (cleanBusinessName (formData.businessName.getD "")).toList,
        isLowerAlphaNum c = true ∨ c = '-') ∧
      (∀ c ∈ (Nat.repr timestamp).toList, c.isDigit = true) ∧
      Nat.repr timestamp ≠ "" ∧
      (GenerateResult.ok
        (generateClientId (formData.businessName.getD "") timestamp randomSuffix)).code
          = 200) := by
  refine ⟨?_, ?_, ?_, ?_, fun details => rfl, ?_⟩
  · intro s hs hlen
    have hbad : validateFormData formData ≠ [] := by
      apply validateFormData_businessName_bad
      right
      rw [hs]
      show (jsTrim s).length < 2
      have := jsTrim_length_le s
      omega
    exact ⟨generatePOST_invalid githubToken parse dispatchOk upstreamStatus timestamp
      randomSuffix body formData htoken hparse hbad, hbad⟩
  · intro h
    have hbad := validateFormData_email_bad formData h
    exact ⟨generatePOST_invalid githubToken parse dispatchOk upstreamStatus timestamp
      randomSuffix body formData htoken hparse hbad, hbad⟩
  · intro h
    have hbad := validateFormData_services_bad formData h
    exact ⟨generatePOST_invalid githubToken parse dispatchOk upstreamStatus timestamp
      randomSuffix body formData htoken hparse hbad, hbad⟩
  · intro h
    have hbad := validateFormData_industry_bad formData h
    exact ⟨generatePOST_invalid githubToken parse dispatchOk upstreamStatus timestamp
      randomSuffix body formData htoken hparse hbad, hbad⟩
  · intro hval hdisp
    exact ⟨generatePOST_valid githubToken parse dispatchOk upstreamStatus timestamp
        randomSuffix body formData htoken hparse hval hdisp,
      rfl, cleanBusinessName_chars _, natRepr_digits timestamp,
      natRepr_ne_empty timestamp, rfl⟩

/-- C8 witness: the all-bad payload is rejected with the non-empty details
list; the good payload yields the slug-digits-suffix clientId. -/
theorem claim_C8_witness :
    generatePOST "token123" genParse true 0 1700000000 "ab12cd" "bad"
      = .validationFailed (validateFormData badForm) ∧
    validateFormData badForm ≠ [] ∧
    generatePOST "token123" genParse true 0 1700000000 "ab12cd" "good"
      = .ok (generateClientId "Acme Corp" 1700000000 "ab12cd") ∧
    generateClientId "Acme Corp" 1700000000 "ab12cd"
      = cleanBusinessName "Acme Corp" ++ "-" ++ Nat.repr 1700000000 ++ "-" ++ "ab12cd" := by
  have hbad := claim_C8_generate "token123" genParse true 0 1700000000 "ab12cd" "bad"
    badForm (by decide) (by decide)
  have hgood := claim_C8_generate "token123" genParse true 0 1700000000 "ab12cd" "good"
    goodForm (by decide) (by decide)
  have h1 := hbad.1 "A" rfl (by decide)
  have h2 := hgood.2.2.2.2.2 (by decide) rfl
  exact ⟨h1.1, h1.2, h2.1, h2.2.1⟩

end ClientPortal
